import Mathlib

/-!
# Verification of the datadasher movie-query tool

A shallow embedding of the two variants of the tool:

* `MovieDB`    — `src/datadasher.py` (the curated Disney dataset variant);
* `MovieFilter` — `src/extra/datascrapper.py` (the broader scraped dataset
  variant).

Python/pandas values are embedded as follows: a possibly-missing cell
(`NaN`/`None`/`NaT`) is an `Option`; numeric cells are `ℚ` (the dataset's
monetary and score values are exact in double precision, so rational
arithmetic is faithful for every comparison the code performs); dates are a
`Date` structure ordered chronologically; a pandas `DataFrame` is a
`List` of records.  Fallible load paths return `Except`.
-/

/-- A calendar date, as `pandas.Timestamp`/`datetime.date` carries it. -/
structure Date where
  year : Nat
  month : Nat
  day : Nat
deriving DecidableEq, Repr

/-- Chronological comparison key: year, then month, then day. -/
def Date.lexKey (d : Date) : Lex (Nat × Lex (Nat × Nat)) :=
  toLex (d.year, toLex (d.month, d.day))

/-- Dates compare chronologically (lexicographically on year, month, day),
exactly as `pandas` datetime values compare. -/
instance : LinearOrder Date :=
  LinearOrder.lift' Date.lexKey (fun a b h => by
    cases a; cases b
    simpa [Date.lexKey, Prod.ext_iff] using h)

/-- Python truthiness of an optional string argument: `if s:` is false for
`None` and for the empty string. -/
def strTruthy : Option String → Bool
  | none => false
  | some s => s ≠ ""

/-- Python truthiness of an optional numeric argument: `if x:` is false for
`None` and for zero. -/
def ratTruthy : Option ℚ → Bool
  | none => false
  | some q => q ≠ 0

/-- Python truthiness of an optional integer argument. -/
def intTruthy : Option Int → Bool
  | none => false
  | some n => n ≠ 0

/-- The value of an optional string once its truthiness guard has passed. -/
def strVal (o : Option String) : String := o.getD ""

/-- The value of an optional rational once its truthiness guard has passed. -/
def ratVal (o : Option ℚ) : ℚ := o.getD 0

/-- The value of an optional integer once its truthiness guard has passed. -/
def intVal (o : Option Int) : Int := o.getD 0

/-- ASCII lower-casing of one character, as `str.lower` acts on the ASCII
field values of these datasets. -/
def lowerChar (c : Char) : Char :=
  if 65 ≤ c.toNat ∧ c.toNat ≤ 90 then Char.ofNat (c.toNat + 32) else c

/-- ASCII upper-casing of one character, as `str.upper` acts on the ASCII
rating codes of these datasets. -/
def upperChar (c : Char) : Char :=
  if 97 ≤ c.toNat ∧ c.toNat ≤ 122 then Char.ofNat (c.toNat - 32) else c

/-- The embedding's `str.lower`. -/
def strLower (s : String) : String := String.mk (s.data.map lowerChar)

/-- The embedding's `str.upper`. -/
def strUpper (s : String) : String := String.mk (s.data.map upperChar)

/-- Whether `pat` occurs at the very start of `s` (on character lists). -/
def leadsWith : List Char → List Char → Bool
  | [], _ => true
  | _ :: _, [] => false
  | a :: as, b :: bs => a == b && leadsWith as bs

/-- Whether `pat` occurs contiguously anywhere inside `s`. -/
def occursIn (pat : List Char) : List Char → Bool
  | [] => leadsWith pat []
  | b :: bs => leadsWith pat (b :: bs) || occursIn pat bs

/-- Case-insensitive substring test: `Series.str.contains(pat, case=False)`
for a pattern without regex metacharacters (every pattern the tool's CLI is
exercised with); the pattern must occur inside the field text. -/
def containsCI (pat s : String) : Bool :=
  occursIn (strLower pat).data (strLower s).data

/-- Whether a character is an ASCII decimal digit. -/
def isDigitChar (c : Char) : Bool := 48 ≤ c.toNat && c.toNat ≤ 57

/-- The numeric value of a digit string read most-significant first. -/
def digitsVal (cs : List Char) : Nat :=
  cs.foldl (fun a c => 10 * a + (c.toNat - 48)) 0

/-- A nonempty all-digit character run parsed to a number. -/
def parseDigits (cs : List Char) : Option Nat :=
  if cs ≠ [] ∧ cs.all isDigitChar then some (digitsVal cs) else none

/-- The Gregorian leap-year rule `datetime` validates dates against. -/
def isLeapYear (y : Nat) : Bool :=
  y % 4 == 0 && (y % 100 != 0 || y % 400 == 0)

/-- The number of days of month `m` of year `y`. -/
def daysInMonth (y m : Nat) : Nat :=
  if m = 2 then (if isLeapYear y then 29 else 28)
  else if m = 4 ∨ m = 6 ∨ m = 9 ∨ m = 11 then 30
  else 31

/-- A `datetime`-valid calendar date, or `none` when `datetime` would raise
`ValueError` (month/day out of range, year outside 1..9999). -/
def mkValidDate (y m d : Nat) : Option Date :=
  if 1 ≤ y ∧ y ≤ 9999 ∧ 1 ≤ m ∧ m ≤ 12 ∧ 1 ≤ d ∧ d ≤ daysInMonth y m then
    some ⟨y, m, d⟩
  else none

/-- Strict parsing of a date string against the format `%d/%m/%Y`: one or two
day digits, a slash, one or two month digits, a slash, exactly four year
digits, nothing else, and the result must be a valid calendar date.  This is
the format `pd.to_datetime(..., format='%d/%m/%Y')` matches
(`src/datadasher.py` line 10) and the third format `MovieFilter.format_date`
tries. -/
def parseDateDMY (s : String) : Option Date :=
  match s.data.splitOn '/' with
  | [ds, ms, ys] =>
    match parseDigits ds, parseDigits ms, parseDigits ys with
    | some d, some m, some y =>
      if ds.length ≤ 2 ∧ ms.length ≤ 2 ∧ ys.length = 4 then mkValidDate y m d
      else none
    | _, _, _ => none
  | _ => none

/-- Digit grouping: walking the reversed digit list, a comma goes before
every character whose index is a positive multiple of three. -/
def commaChunk : List Char → Nat → List Char
  | [], _ => []
  | c :: cs, i =>
    if i ≠ 0 ∧ i % 3 = 0 then ',' :: c :: commaChunk cs (i + 1)
    else c :: commaChunk cs (i + 1)

/-- A natural number rendered with thousands separators, as Python's
format spec `,` renders it (`f"{x:,.0f}"`, `f"{x:,}"`). -/
def fmtNatCommas (n : Nat) : String :=
  String.mk ((commaChunk (Nat.toDigits 10 n).reverse 0).reverse)

/-- An integer rendered with thousands separators. -/
def fmtIntCommas (n : ℤ) : String :=
  (if n < 0 then "-" else "") ++ fmtNatCommas n.natAbs

/-- Python `int(x)`: truncation toward zero. -/
def pyInt (q : ℚ) : ℤ := q.num.tdiv q.den

/-- Rounding to the nearest integer with ties to even, the rounding of
Python's `%.0f`/`{:.0f}` format on floats (the dataset's monetary values are
integers, where this is the identity).  Written on the numerator and
denominator so that it evaluates by kernel reduction. -/
def pyRound (q : ℚ) : ℤ :=
  let n := q.num
  let d : ℤ := q.den
  let f := n.fdiv d
  let r := n - f * d
  if 2 * r < d then f
  else if d < 2 * r then f + 1
  else if f % 2 = 0 then f
  else f + 1

/-- A number padded to two digits, as `strftime('%d')`/`('%m')` pad. -/
def pad2 (n : Nat) : String := if n < 10 then "0" ++ Nat.repr n else Nat.repr n

/-- A year padded to four digits, as `strftime('%Y')` renders it. -/
def pad4 (n : Nat) : String :=
  if n < 10 then "000" ++ Nat.repr n
  else if n < 100 then "00" ++ Nat.repr n
  else if n < 1000 then "0" ++ Nat.repr n
  else Nat.repr n

/-- A date rendered in the canonical `DD/MM/YYYY` form
(`strftime('%d/%m/%Y')`). -/
def fmtDateDMY (d : Date) : String :=
  pad2 d.day ++ "/" ++ pad2 d.month ++ "/" ++ pad4 d.year

/-- One guarded predicate stage of a pandas filter chain: when the CLI
argument's truthiness guard `b` is false the stage imposes no constraint. -/
def guardPred (b : Bool) (p : α → Bool) (a : α) : Bool := !b || p a

/-- A chain of boolean-mask filters applied to a frame in order, the shape of
both `filter` methods (`result = result[mask]` repeated). -/
def applyFilters (ps : List (α → Bool)) (l : List α) : List α :=
  ps.foldl (fun acc p => acc.filter p) l

/-!
## The sort model

Both `sort` methods call `DataFrame.sort_values(by=column, ascending=...)`.
pandas computes the row order with `nargsort`
(`pandas/core/sorting.py`): the rows whose key is missing (`NaN`/`NaT`) are
set aside and appended at the end (`na_position='last'`); the remaining rows
are ordered by `numpy.argsort` on their keys — for the descending direction
pandas reverses the non-missing rows first, argsorts ascending, and reverses
the resulting indexer.  `numpy.argsort`'s default `kind='quicksort'`
(introsort) runs a stable insertion sort on every segment of at most 16
elements and is modelled here as the stable ascending insertion sort;
statements about which keys the output is ordered by (permutation,
sortedness) are faithful for inputs of any size, and statements about the
relative order of tied keys are faithful for frames of at most 16
non-missing rows (see claim C1's record for larger frames).  A missing key is
`⊤ : WithTop K`, which is exactly "sorts last among ascending keys". -/

section SortModel

variable {α : Type} {K : Type} [LinearOrder K]

/-- Comparison of two rows by an optional sort key, missing keys largest. -/
def naLE (key : α → WithTop K) (a b : α) : Prop := key a ≤ key b

instance (key : α → WithTop K) : DecidableRel (naLE key) := fun a b =>
  inferInstanceAs (Decidable (key a ≤ key b))

instance (key : α → WithTop K) : IsTotal α (naLE key) :=
  ⟨fun a b => le_total (key a) (key b)⟩

instance (key : α → WithTop K) : IsTrans α (naLE key) :=
  ⟨fun _ _ _ h h' => le_trans h h'⟩

/-- Ordering a descending sort's output satisfies: each later row either has
a missing key or a key at most the earlier row's. -/
def naDescLE (key : α → WithTop K) (a b : α) : Prop :=
  key b = ⊤ ∨ key b ≤ key a

/-- The row order `DataFrame.sort_values` produces, per pandas `nargsort`:
non-missing keys sorted (for descending: reversed, sorted ascending,
reversed), missing keys appended last in input order. -/
def nargsort (key : α → WithTop K) (ascending : Bool) (l : List α) : List α :=
  (match ascending with
   | true => List.insertionSort (naLE key) (l.filter (fun a => decide (key a ≠ ⊤)))
   | false =>
     (List.insertionSort (naLE key) ((l.filter (fun a => decide (key a ≠ ⊤))).reverse)).reverse)
  ++ l.filter (fun a => decide (key a = ⊤))

end SortModel

/-!
## The curated variant: `MovieDB` (`src/datadasher.py`)

The curated Disney dataset has columns `Movie Title`, `Date Released`,
`Genre`, `MPAA Rating`, `Total Gross` and `Inflation Adjusted Gross`;
the loader adds the derived `Season` column. -/

namespace MovieDB

/-- A row of the source file as `pd.read_csv` hands it to `MovieDB.__init__`:
each cell either holds a value of the column's inferred type or is missing
(`NaN`). -/
structure RawRow where
  title : String
  dateStr : Option String
  genre : Option String
  rating : Option String
  gross : Option ℚ
  inflation : Option ℚ
deriving DecidableEq, Repr

/-- A loaded record: the raw columns with `Date Released` replaced by the
strictly parsed date and the derived `Season` column added. -/
structure Movie where
  title : String
  date : Option Date
  genre : Option String
  rating : Option String
  gross : Option ℚ
  inflation : Option ℚ
  season : Option String
deriving DecidableEq, Repr

/-- The month-to-season dictionary of `src/datadasher.py` lines 12-17, in the
order the source writes it; `Series.map` yields a missing value for a key
outside the dictionary. -/
def seasonDict : List (Nat × String) :=
  [(12, "Winter"), (1, "Winter"), (2, "Winter"),
   (3, "Spring"), (4, "Spring"), (5, "Spring"),
   (6, "Summer"), (7, "Summer"), (8, "Summer"),
   (9, "Fall"), (10, "Fall"), (11, "Fall")]

/-- `Series.map` applied to the season dictionary. -/
def seasonMap (m : Nat) : Option String :=
  (seasonDict.find? (fun p => p.1 == m)).map (·.2)

/-- One record of the loaded frame: the parsed date (a missing cell stays
missing, `NaT`) and the season derived from its month. -/
def loadRow (r : RawRow) : Movie :=
  { title := r.title
    date := r.dateStr.bind parseDateDMY
    genre := r.genre
    rating := r.rating
    gross := r.gross
    inflation := r.inflation
    season := (r.dateStr.bind parseDateDMY).bind (fun d => seasonMap d.month) }

/-- How `MovieDB.__init__` can abort: the `FileNotFoundError` handler or the
catch-all `except Exception` handler (both print a diagnostic and
`sys.exit(1)`). -/
inductive LoadError
  | fileNotFound
  | loadFailure
deriving DecidableEq, Repr

/-- `MovieDB.__init__` on a source whose delimited-text framing is intact
(`pd.read_csv` has already produced `rows`):
`pd.to_datetime(..., format='%d/%m/%Y')` is all-or-nothing — if any present
`Date Released` cell fails the strict parse it raises, the catch-all
handler at lines 22-24 prints a diagnostic and the process exits with code 1.
Otherwise every row is loaded with its parsed date and derived season. -/
def init (rows : List RawRow) : Except LoadError (List Movie) :=
  if rows.all (fun r => r.dateStr.all (fun s => (parseDateDMY s).isSome)) then
    .ok (rows.map loadRow)
  else
    .error .loadFailure

/-- The keyword arguments of `MovieDB.filter` (all default `None`). -/
structure Args where
  genre : Option String := none
  season : Option String := none
  year : Option Int := none
  year_start : Option Int := none
  year_end : Option Int := none
  rating : Option String := none
  min_gross : Option ℚ := none

/-- `result['Genre'].str.contains(genre, case=False, na=False)`: a missing
genre never matches. -/
def genreTest (g : String) (m : Movie) : Bool :=
  match m.genre with
  | none => false
  | some s => containsCI g s

/-- `result['Season'] == season`: a missing season compares unequal. -/
def seasonTest (s : String) (m : Movie) : Bool := m.season == some s

/-- `result['Date Released'].dt.year == year`: a missing date (`NaT`) has a
missing year, which compares unequal. -/
def yearTest (y : Int) (m : Movie) : Bool :=
  match m.date with
  | none => false
  | some d => (d.year : Int) == y

/-- `result['Date Released'].dt.year.between(year_start, year_end)`:
inclusive on both bounds, false on a missing date. -/
def yearRangeTest (y1 y2 : Int) (m : Movie) : Bool :=
  match m.date with
  | none => false
  | some d => decide (y1 ≤ (d.year : Int) ∧ (d.year : Int) ≤ y2)

/-- `result['MPAA Rating'] == rating.upper()`: only the argument is
upper-cased; a missing rating compares unequal. -/
def ratingTest (r : String) (m : Movie) : Bool := m.rating == some (strUpper r)

/-- `result['Total Gross'] >= float(min_gross) * 1_000_000`: the threshold
arrives in millions and is scaled here; a missing gross (`NaN`) compares
false. -/
def grossTest (t : ℚ) (m : Movie) : Bool :=
  match m.gross with
  | none => false
  | some g => decide (t * 1000000 ≤ g)

/-- `MovieDB.filter` (lines 26-44): each supplied argument adds one
boolean-mask stage, applied in the source's order; `if arg:` guards make an
absent (or Python-falsy) argument skip its stage. -/
def filter (a : Args) (df : List Movie) : List Movie :=
  applyFilters
    [guardPred (strTruthy a.genre) (genreTest (strVal a.genre)),
     guardPred (strTruthy a.season) (seasonTest (strVal a.season)),
     guardPred (intTruthy a.year) (yearTest (intVal a.year)),
     guardPred (intTruthy a.year_start && intTruthy a.year_end)
       (yearRangeTest (intVal a.year_start) (intVal a.year_end)),
     guardPred (strTruthy a.rating) (ratingTest (strVal a.rating)),
     guardPred (ratTruthy a.min_gross) (grossTest (ratVal a.min_gross))]
    df

/-- The columns `MovieDB.sort`'s dictionary can resolve a key to. -/
inductive Column
  | totalGross
  | inflationGross
  | dateReleased
  | movieTitle
deriving DecidableEq, Repr

/-- The `sort_columns` dictionary lookup with default `'Total Gross'`
(line 56); both `'date'` and `'year'` resolve to `'Date Released'`. -/
def sortColumn (s : String) : Column :=
  if s = "gross" then .totalGross
  else if s = "inflation" then .inflationGross
  else if s = "date" then .dateReleased
  else if s = "title" then .movieTitle
  else if s = "year" then .dateReleased
  else .totalGross

/-- `data.sort_values(column, ascending=ascending)` for one resolved
column. -/
def sortByColumn (c : Column) (ascending : Bool) (data : List Movie) : List Movie :=
  match c with
  | .totalGross => nargsort (fun m => (m.gross : WithTop ℚ)) ascending data
  | .inflationGross => nargsort (fun m => (m.inflation : WithTop ℚ)) ascending data
  | .dateReleased => nargsort (fun m => (m.date : WithTop Date)) ascending data
  | .movieTitle => nargsort (fun m => ((some m.title : Option String) : WithTop String)) ascending data

/-- `MovieDB.sort` (lines 46-61): the key is lower-cased, resolved through
the dictionary, and the `'year'` key is special-cased to sort by
`'Date Released'` (which the dictionary also maps it to). -/
def sort (data : List Movie) (sort_by : String := "gross") (ascending : Bool := false) :
    List Movie :=
  if strLower sort_by = "year" then sortByColumn .dateReleased ascending data
  else sortByColumn (sortColumn (strLower sort_by)) ascending data

end MovieDB

/-- A missing cell rendered by `to_csv`: the empty field. -/
def cellS (o : Option String) : String := o.getD ""

/-- `MovieDB.display`'s currency formatting `f"${x:,.0f}"` (lines 77-78),
applied to the frame before either output branch: a dollar prefix and
thousands separators.  On a missing value the float format renders `nan`,
giving the cell `$nan`. -/
def fmtCurrencyUSD (x : Option ℚ) : String :=
  match x with
  | some q => "$" ++ fmtIntCommas (pyRound q)
  | none => "$nan"

/-- `strftime('%d/%m/%Y')` on the date column; a missing date (`NaT`) maps
to a missing cell, which `to_csv` writes empty. -/
def dateCell (d : Option Date) : String :=
  match d with
  | some d => fmtDateDMY d
  | none => ""

namespace MovieDB

/-- The row of the display frame built by `MovieDB.display` (lines 70-78):
the selected columns with the date and both monetary columns formatted.
The `csv` branch (lines 83-84) serializes exactly this frame, so table mode
and delimited-text mode share these cells. -/
def displayCells (m : Movie) : List String :=
  [m.title, dateCell m.date, cellS m.genre, cellS m.season, cellS m.rating,
   fmtCurrencyUSD m.gross, fmtCurrencyUSD m.inflation]

/-- The header row `display_df.to_csv` emits. -/
def csvHeader : List String :=
  ["Movie Title", "Date Released", "Genre", "Season", "MPAA Rating",
   "Total Gross", "Inflation Adjusted Gross"]

/-- `MovieDB.display(data, limit, format='csv')` as rows of cells: nothing
at all for an empty result (the early `No movies found` return), otherwise
the header plus the formatted rows, truncated to `limit` when that argument
is truthy. -/
def csvOutput (data : List Movie) (limit : Option Nat) : List (List String) :=
  if data.length = 0 then []
  else
    let rows := data.map displayCells
    let rows := match limit with
      | some n => if n ≠ 0 then rows.take n else rows
      | none => rows
    csvHeader :: rows

end MovieDB

/-!
## The broader variant: `MovieFilter` (`src/extra/datascrapper.py`)

The scraped dataset (`movies.csv`) carries the columns `name`, `rating`,
`genre`, `year`, `released`, `score`, `votes`, `director`, `star`,
`country`, `budget`, `gross`, `company`; the loader coerces the numeric
columns, normalizes `released` and renames to the display names.  The
embedding fixes that full schema, so every `'col' in result.columns` test
of the source is true. -/

namespace MovieFilter

/-- A row of `movies.csv` as `pd.read_csv` hands it over: string cells,
with the numeric columns still raw text for `pd.to_numeric`. -/
structure SRawRow where
  name : Option String
  rating : Option String
  genre : Option String
  year : Option String
  released : Option String
  score : Option String
  votes : Option String
  director : Option String
  star : Option String
  country : Option String
  budget : Option String
  gross : Option String
  company : Option String
deriving DecidableEq, Repr

/-- A loaded record after numeric coercion, date normalization and the
column renames of lines 24-31. -/
structure SMovie where
  title : Option String
  released : Option String
  genre : Option String
  rating : Option String
  director : Option String
  star : Option String
  country : Option String
  company : Option String
  year : Option ℚ
  budget : Option ℚ
  gross : Option ℚ
  votes : Option ℚ
  score : Option ℚ
deriving DecidableEq, Repr

/-- A whitespace character, as the date regex's `\s` class matches it
(the datasets carry only these whitespace characters). -/
def isSpaceChar (c : Char) : Bool :=
  c == ' ' || c == '\t' || c == '\n' || c == '\r'

/-- One match of `\s*\([^)]*\)` at the head of the list: optional
whitespace, an opening parenthesis, any non-`)` characters, a closing
parenthesis.  Returns the remainder, or `none` when the head is no such
group. -/
def matchParenGroup (cs : List Char) : Option (List Char) :=
  match cs.dropWhile isSpaceChar with
  | '(' :: more =>
    match more.dropWhile (fun c => !(c == ')')) with
    | ')' :: tail => some tail
    | _ => none
  | _ => none

/-- `re.sub(r'\s*\([^)]*\)', '', s)`: every parenthesized annotation (with
its leading whitespace) removed; the fuel starts at the list length, which
one-character-minimum progress never exhausts. -/
def stripParensAux : Nat → List Char → List Char
  | 0, cs => cs
  | _, [] => []
  | fuel + 1, c :: cs =>
    match matchParenGroup (c :: cs) with
    | some rest => stripParensAux fuel rest
    | none => c :: stripParensAux fuel cs

/-- The parenthesis-stripping pass of `format_date` (line 47). -/
def stripParens (cs : List Char) : List Char := stripParensAux cs.length cs

/-- Python `str.strip()`. -/
def trimChars (cs : List Char) : List Char :=
  ((cs.dropWhile isSpaceChar).reverse.dropWhile isSpaceChar).reverse

/-- The full month names `%B` matches, with their numbers. -/
def monthNamesFull : List (String × Nat) :=
  [("january", 1), ("february", 2), ("march", 3), ("april", 4), ("may", 5),
   ("june", 6), ("july", 7), ("august", 8), ("september", 9), ("october", 10),
   ("november", 11), ("december", 12)]

/-- The abbreviated month names `%b` matches. -/
def monthNamesAbbr : List (String × Nat) :=
  [("jan", 1), ("feb", 2), ("mar", 3), ("apr", 4), ("may", 5), ("jun", 6),
   ("jul", 7), ("aug", 8), ("sep", 9), ("oct", 10), ("nov", 11), ("dec", 12)]

/-- A month name from the table at the head of the (already lower-cased)
characters, with the remainder; `strptime` matches names
case-insensitively. -/
def matchMonthName (table : List (String × Nat)) (cs : List Char) :
    Option (Nat × List Char) :=
  table.findSome? fun p =>
    if leadsWith p.1.data cs then some (p.2, cs.drop p.1.data.length) else none

/-- Parsing against `'%B %d, %Y'` / `'%b %d, %Y'`: month name, whitespace,
one or two day digits, a comma, whitespace, exactly four year digits,
nothing else; the result must be a calendar-valid date. -/
def parseMonthDate (table : List (String × Nat)) (s : String) : Option Date :=
  match matchMonthName table (s.data.map lowerChar) with
  | none => none
  | some (m, rest) =>
    let rest1 := rest.dropWhile isSpaceChar
    if rest1.length = rest.length then none
    else
      let ds := rest1.takeWhile isDigitChar
      if 1 ≤ ds.length ∧ ds.length ≤ 2 then
        match rest1.drop ds.length with
        | ',' :: rest2 =>
          let rest3 := rest2.dropWhile isSpaceChar
          if rest3.length = rest2.length then none
          else
            match parseDigits rest3 with
            | some y => if rest3.length = 4 then mkValidDate y m (digitsVal ds) else none
            | none => none
        | _ => none
      else none

/-- Parsing against `'%m/%d/%Y'`. -/
def parseDateMDY (s : String) : Option Date :=
  match s.data.splitOn '/' with
  | [ms, ds, ys] =>
    match parseDigits ds, parseDigits ms, parseDigits ys with
    | some d, some m, some y =>
      if ds.length ≤ 2 ∧ ms.length ≤ 2 ∧ ys.length = 4 then mkValidDate y m d
      else none
    | _, _, _ => none
  | _ => none

/-- Parsing against `'%Y-%m-%d'`. -/
def parseDateYMD (s : String) : Option Date :=
  match s.data.splitOn '-' with
  | [ys, ms, ds] =>
    match parseDigits ds, parseDigits ms, parseDigits ys with
    | some d, some m, some y =>
      if ds.length ≤ 2 ∧ ms.length ≤ 2 ∧ ys.length = 4 then mkValidDate y m d
      else none
    | _, _, _ => none
  | _ => none

/-- The ordered format chain of `format_date` (line 50): the first
successful parse wins. -/
def tryDateFormats (s : String) : Option Date :=
  (parseMonthDate monthNamesFull s).orElse fun _ =>
  (parseMonthDate monthNamesAbbr s).orElse fun _ =>
  (parseDateDMY s).orElse fun _ =>
  (parseDateMDY s).orElse fun _ =>
  parseDateYMD s

/-- `MovieFilter.format_date` (lines 39-60): a missing value or the marker
`'N/A'` maps to `'N/A'`; otherwise parenthesized annotations are stripped,
the ordered formats are tried and a success is rendered `DD/MM/YYYY`; when
no format matches, the ORIGINAL text is returned unchanged (deliberate
best-effort passthrough). -/
def format_date (o : Option String) : String :=
  match o with
  | none => "N/A"
  | some s =>
    if s = "N/A" then "N/A"
    else
      match tryDateFormats (String.mk (trimChars (stripParens s.data))) with
      | some d => fmtDateDMY d
      | none => s

/-- `pd.to_numeric(col, errors='coerce')` on one cell: an optional sign,
digits, an optional decimal point and fraction digits; anything else
coerces to missing (`NaN`), never an exception.  (Exponent notation, which
the datasets do not use, also coerces to a value in pandas but is not
modelled.) -/
def parseRat (s : String) : Option ℚ :=
  let cs := trimChars s.data
  let signAndRest : Bool × List Char :=
    match cs with
    | '-' :: rest => (true, rest)
    | '+' :: rest => (false, rest)
    | _ => (false, cs)
  let body := signAndRest.2
  let mag : Option ℚ :=
    match body.splitOn '.' with
    | [ip] => (parseDigits ip).map (fun n => (n : ℚ))
    | [ip, fp] =>
      if (ip ≠ [] ∨ fp ≠ []) ∧ ip.all isDigitChar ∧ fp.all isDigitChar then
        some ((digitsVal ip : ℚ) + (digitsVal fp : ℚ) / ((10 : ℚ) ^ fp.length))
      else none
    | _ => none
  mag.map fun q => if signAndRest.1 then -q else q

/-- One loaded record: numeric coercion on the numeric columns (lines
14-17), date normalization (lines 20-21) and the renames (lines 24-31). -/
def loadSRow (r : SRawRow) : SMovie :=
  { title := r.name
    released := some (format_date r.released)
    genre := r.genre
    rating := r.rating
    director := r.director
    star := r.star
    country := r.country
    company := r.company
    year := r.year.bind parseRat
    budget := r.budget.bind parseRat
    gross := r.gross.bind parseRat
    votes := r.votes.bind parseRat
    score := r.score.bind parseRat }

/-- `MovieFilter.__init__` on a source whose delimited-text framing is
intact: the only handler is `except FileNotFoundError` (lines 35-37), and
no step of the body raises — `to_numeric(errors='coerce')` nulls bad
numbers and `format_date` catches its own failures — so the load always
succeeds. -/
def init (rows : List SRawRow) : Except MovieDB.LoadError (List SMovie) :=
  .ok (rows.map loadSRow)

end MovieFilter

namespace MovieFilter

/-- The keyword arguments of `MovieFilter.filter` (all default `None`). -/
structure SArgs where
  genre : Option String := none
  rating : Option String := none
  year : Option Int := none
  year_start : Option Int := none
  year_end : Option Int := none
  director : Option String := none
  star : Option String := none
  country : Option String := none
  company : Option String := none
  min_score : Option ℚ := none
  min_gross : Option ℚ := none
  min_votes : Option Int := none

/-- `result['Genre'].str.contains(genre, case=False, na=False)`. -/
def sGenreTest (g : String) (m : SMovie) : Bool :=
  match m.genre with
  | none => false
  | some s => containsCI g s

/-- `result['MPAA Rating'] == rating.upper()`: only the argument is
upper-cased. -/
def sRatingTest (r : String) (m : SMovie) : Bool := m.rating == some (strUpper r)

/-- `result['year'] == year` on the coerced numeric year column. -/
def sYearTest (y : Int) (m : SMovie) : Bool :=
  match m.year with
  | none => false
  | some q => decide (q = (y : ℚ))

/-- `(result['year'] >= year_start) & (result['year'] <= year_end)`. -/
def sYearRangeTest (y1 y2 : Int) (m : SMovie) : Bool :=
  match m.year with
  | none => false
  | some q => decide ((y1 : ℚ) ≤ q ∧ q ≤ (y2 : ℚ))

/-- `result['director'].str.contains(director, case=False, na=False)`. -/
def sDirectorTest (t : String) (m : SMovie) : Bool :=
  match m.director with
  | none => false
  | some s => containsCI t s

/-- `result['star'].str.contains(star, case=False, na=False)`. -/
def sStarTest (t : String) (m : SMovie) : Bool :=
  match m.star with
  | none => false
  | some s => containsCI t s

/-- `result['country'].str.contains(country, case=False, na=False)`. -/
def sCountryTest (t : String) (m : SMovie) : Bool :=
  match m.country with
  | none => false
  | some s => containsCI t s

/-- `result['Company'].str.contains(company, case=False, na=False)`. -/
def sCompanyTest (t : String) (m : SMovie) : Bool :=
  match m.company with
  | none => false
  | some s => containsCI t s

/-- `result['score'] >= min_score`; a missing score compares false. -/
def sScoreTest (t : ℚ) (m : SMovie) : Bool :=
  match m.score with
  | none => false
  | some q => decide (t ≤ q)

/-- `result['Total Gross'] >= min_gross`: the threshold arrives already in
base units (`main` scales it, line 298); a missing gross compares false. -/
def sGrossTest (t : ℚ) (m : SMovie) : Bool :=
  match m.gross with
  | none => false
  | some q => decide (t ≤ q)

/-- `result['votes'] >= min_votes`; a missing vote count compares false. -/
def sVotesTest (v : Int) (m : SMovie) : Bool :=
  match m.votes with
  | none => false
  | some q => decide ((v : ℚ) ≤ q)

/-- `MovieFilter.filter` (lines 62-91): the guarded boolean-mask stages in
the source's order; under the fixed `movies.csv` schema every
`'col' in result.columns` test is true, so only the `if arg:` truthiness
guards remain. -/
def filter (a : SArgs) (df : List SMovie) : List SMovie :=
  applyFilters
    [guardPred (strTruthy a.genre) (sGenreTest (strVal a.genre)),
     guardPred (strTruthy a.rating) (sRatingTest (strVal a.rating)),
     guardPred (intTruthy a.year) (sYearTest (intVal a.year)),
     guardPred (intTruthy a.year_start && intTruthy a.year_end)
       (sYearRangeTest (intVal a.year_start) (intVal a.year_end)),
     guardPred (strTruthy a.director) (sDirectorTest (strVal a.director)),
     guardPred (strTruthy a.star) (sStarTest (strVal a.star)),
     guardPred (strTruthy a.country) (sCountryTest (strVal a.country)),
     guardPred (strTruthy a.company) (sCompanyTest (strVal a.company)),
     guardPred (ratTruthy a.min_score) (sScoreTest (ratVal a.min_score)),
     guardPred (ratTruthy a.min_gross) (sGrossTest (ratVal a.min_gross)),
     guardPred (intTruthy a.min_votes) (sVotesTest (intVal a.min_votes))]
    df

/-- `main`'s conversion of the `--min-gross` CLI argument (line 298):
`args.min_gross * 1_000_000 if args.min_gross else None` — a missing or
zero argument passes `None`, otherwise millions are scaled to base
units. -/
def mainMinGross (x : Option ℚ) : Option ℚ :=
  if ratTruthy x then some (ratVal x * 1000000) else none

/-- The columns `MovieFilter.sort`'s `sort_map` can resolve a key to. -/
inductive SColumn
  | movieTitle
  | yearCol
  | ratingCol
  | grossCol
  | budgetCol
  | votesCol
  | dateReleased
deriving DecidableEq, Repr

/-- The `sort_map` dictionary lookup with default `'Total Gross'`
(lines 95-105): the key `'year'` resolves to the numeric `year` column,
and `'released'` to the `Date Released` string column. -/
def sortMap (s : String) : SColumn :=
  if s = "name" then .movieTitle
  else if s = "year" then .yearCol
  else if s = "rating" then .ratingCol
  else if s = "gross" then .grossCol
  else if s = "budget" then .budgetCol
  else if s = "votes" then .votesCol
  else if s = "released" then .dateReleased
  else .grossCol

/-- `MovieFilter.sort` (lines 93-108): the key is lower-cased, resolved
through `sort_map`, and the frame is sorted by the resolved column (the
column is always present under the fixed schema).  Note `Date Released`
holds `format_date`'s strings, so `'released'` sorts lexicographically on
them. -/
def sort (data : List SMovie) (by_ : String := "gross") (ascending : Bool := false) :
    List SMovie :=
  match sortMap (strLower by_) with
  | .movieTitle => nargsort (fun m => (m.title : WithTop String)) ascending data
  | .yearCol => nargsort (fun m => (m.year : WithTop ℚ)) ascending data
  | .ratingCol => nargsort (fun m => (m.rating : WithTop String)) ascending data
  | .grossCol => nargsort (fun m => (m.gross : WithTop ℚ)) ascending data
  | .budgetCol => nargsort (fun m => (m.budget : WithTop ℚ)) ascending data
  | .votesCol => nargsort (fun m => (m.votes : WithTop ℚ)) ascending data
  | .dateReleased => nargsort (fun m => (m.released : WithTop String)) ascending data

/-- `f"{int(x):,}" if pd.notna(x) and x != '' else 'N/A'` — the table-mode
gross cell (lines 124-126): thousands separators, no currency prefix. -/
def tableGrossCell (g : Option ℚ) : String :=
  match g with
  | some q => fmtIntCommas (pyInt q)
  | none => "N/A"

/-- `str(int(x)) if pd.notna(x) and x != '' else ''` — the delimited-text
gross cell (lines 136-139 and 192-195): a bare integer, no separators, no
prefix. -/
def csvGrossCell (g : Option ℚ) : String :=
  match g with
  | some q => (pyInt q).repr
  | none => ""

/-- The exact header of the delimited-text export (lines 145 and 201). -/
def csvHeader : List String :=
  ["Movie Title", "Date Released", "Genre", "MPAA Rating", "Total Gross",
   "Inflation Adjusted Gross"]

/-- One exported row (built at lines 130-145 by `display` and identically at
lines 186-201 by `save_to_csv`): the five source-backed cells, then the
`Inflation Adjusted Gross` placeholder column the code sets to the literal
string `'0'` for every row (line 142 / 198). -/
def csvRow (m : SMovie) : List String :=
  [cellS m.title, cellS m.released, cellS m.genre, cellS m.rating,
   csvGrossCell m.gross, "0"]

/-- The delimited-text output of `display(..., format='csv')` and of
`save_to_csv` as rows of cells: nothing for an empty result (both methods
return early), otherwise the header plus one row per record — the full
record set, since neither CSV path applies the display limit. -/
def csvOutput (data : List SMovie) : List (List String) :=
  if data.length = 0 then [] else csvHeader :: data.map csvRow

end MovieFilter

/-!
## Sample records used by concrete counterexamples and witnesses -/

/-- A curated record whose stored rating is the lower-case `pg`. -/
def moviePg : MovieDB.Movie :=
  { title := "X", date := none, genre := none, rating := some "pg",
    gross := none, inflation := none, season := none }

/-- A curated record whose stored rating is the canonical `PG`. -/
def movieUpPg : MovieDB.Movie :=
  { title := "Y", date := none, genre := none, rating := some "PG",
    gross := none, inflation := none, season := none }

/-- A curated record with gross exactly 100 million. -/
def movieGrossEq : MovieDB.Movie :=
  { title := "AtThreshold", date := none, genre := none, rating := none,
    gross := some 100000000, inflation := none, season := none }

/-- A curated record with gross one unit below 100 million. -/
def movieGrossLow : MovieDB.Movie :=
  { title := "BelowThreshold", date := none, genre := none, rating := none,
    gross := some 99999999, inflation := none, season := none }

/-- A curated record with a missing gross. -/
def movieNoGross : MovieDB.Movie :=
  { title := "NoGross", date := none, genre := none, rating := none,
    gross := none, inflation := none, season := none }

/-- A scraped record with gross exactly 100 million. -/
def smovieGrossEq : MovieFilter.SMovie :=
  { title := some "SAtThreshold", released := none, genre := none, rating := none,
    director := none, star := none, country := none, company := none,
    year := none, budget := none, gross := some 100000000, votes := none,
    score := none }

/-- A scraped record with a missing score. -/
def smovieNoScore : MovieFilter.SMovie :=
  { title := some "SNoScore", released := none, genre := none, rating := none,
    director := none, star := none, country := none, company := none,
    year := none, budget := none, gross := none, votes := none, score := none }

/-- A scraped record whose materialized `year` column says 1981 while its
release-date string says 1 January 1980 (the scraped dataset's `year` comes
from the title line and can disagree with `released`). -/
def smovieYearA : MovieFilter.SMovie :=
  { title := some "A", released := some "01/01/1980", genre := none,
    rating := none, director := none, star := none, country := none,
    company := none, year := some 1981, budget := none, gross := none,
    votes := none, score := none }

/-- A scraped record with `year` 1980 and release date 31 December 1981. -/
def smovieYearB : MovieFilter.SMovie :=
  { title := some "B", released := some "31/12/1981", genre := none,
    rating := none, director := none, star := none, country := none,
    company := none, year := some 1980, budget := none, gross := none,
    votes := none, score := none }

/-- A curated raw row whose `Date Released` cell is not in `DD/MM/YYYY`
form (the scraped sources write dates like this, so it is a realistic cell)
while every other part of the row is well-formed. -/
def rowBadDate : MovieDB.RawRow :=
  { title := "The Little Mermaid", dateStr := some "November 17, 1989",
    genre := some "Musical", rating := some "G",
    gross := some 111543479, inflation := some 233208770 }

/-- A curated raw row with a well-formed December date. -/
def rowWinter : MovieDB.RawRow :=
  { title := "The Santa Clause", dateStr := some "11/11/1994",
    genre := some "Comedy", rating := some "PG",
    gross := some 144833357, inflation := some 310603461 }

/-- A curated record holding concrete monetary values. -/
def movieMoney : MovieDB.Movie :=
  { title := "Aladdin", date := some ⟨1992, 11, 25⟩, genre := some "Comedy",
    rating := some "G", gross := some 217350219, inflation := some 441969178,
    season := some "Fall" }

/-- A scraped record holding a concrete monetary value. -/
def smovieMoney : MovieFilter.SMovie :=
  { title := some "Top Gun", released := some "16/05/1986",
    genre := some "Action", rating := some "PG", director := none,
    star := none, country := none, company := none, year := some 1986,
    budget := none, gross := some 1234567, votes := none, score := none }

/-- The season mapping exactly as §3/§8 of the specification state it:
months 12, 1, 2 give Winter; 3, 4, 5 Spring; 6, 7, 8 Summer; 9, 10, 11
Fall.  Stated independently of the code's dictionary so that claim C9
compares the two. -/
def specSeason (m : Nat) : Option String :=
  if m = 12 ∨ m = 1 ∨ m = 2 then some "Winter"
  else if m = 3 ∨ m = 4 ∨ m = 5 then some "Spring"
  else if m = 6 ∨ m = 7 ∨ m = 8 then some "Summer"
  else if m = 9 ∨ m = 10 ∨ m = 11 then some "Fall"
  else none

/-!
## General lemmas about the filter-chain and sort models -/

theorem applyFilters_eq_filter (ps : List (α → Bool)) (l : List α) :
    applyFilters ps l = l.filter (fun a => ps.all (fun p => p a)) := by
  induction ps generalizing l with
  | nil => simp [applyFilters]
  | cons p ps ih =>
    show applyFilters ps (l.filter p) = _
    rw [ih, List.filter_filter]
    refine List.filter_congr (fun x _ => ?_)
    simp [Bool.and_comm]

theorem applyFilters_sublist (ps : List (α → Bool)) (l : List α) :
    (applyFilters ps l).Sublist l := by
  rw [applyFilters_eq_filter]; exact List.filter_sublist l

theorem applyFilters_idem (ps : List (α → Bool)) (l : List α) :
    applyFilters ps (applyFilters ps l) = applyFilters ps l := by
  rw [applyFilters_eq_filter, applyFilters_eq_filter, List.filter_filter]
  exact List.filter_congr (fun x _ => by simp)

theorem mem_applyFilters {ps : List (α → Bool)} {l : List α} {a : α} :
    a ∈ applyFilters ps l ↔ a ∈ l ∧ ∀ p ∈ ps, p a = true := by
  rw [applyFilters_eq_filter]
  simp [List.mem_filter, List.all_eq_true]

section SortModelLemmas

variable {α : Type} {K : Type} [LinearOrder K]

theorem nargsort_perm (key : α → WithTop K) (ascending : Bool) (l : List α) :
    (nargsort key ascending l).Perm l := by
  have hsplit : (l.filter (fun a => decide (key a ≠ ⊤)) ++ l.filter (fun a => decide (key a = ⊤))).Perm l := by
    have h : l.filter (fun a => decide (key a = ⊤)) =
        l.filter (fun a => !(decide (key a ≠ ⊤))) :=
      List.filter_congr (fun x _ => by by_cases h : key x = ⊤ <;> simp [h])
    rw [h]
    exact List.filter_append_perm _ l
  cases ascending with
  | true =>
    show (List.insertionSort (naLE key) (l.filter (fun a => decide (key a ≠ ⊤))) ++
        l.filter (fun a => decide (key a = ⊤))).Perm l
    exact ((List.perm_insertionSort _ _).append_right _).trans hsplit
  | false =>
    show ((List.insertionSort (naLE key) ((l.filter (fun a => decide (key a ≠ ⊤))).reverse)).reverse ++
        l.filter (fun a => decide (key a = ⊤))).Perm l
    refine Trans.trans (List.Perm.append_right _ ?_) hsplit
    exact ((List.reverse_perm _).trans (List.perm_insertionSort _ _)).trans (List.reverse_perm _)

theorem nargsort_sorted_asc (key : α → WithTop K) (l : List α) :
    List.Sorted (naLE key) (nargsort key true l) := by
  show List.Pairwise (naLE key)
    (List.insertionSort (naLE key) (l.filter (fun a => decide (key a ≠ ⊤))) ++
      l.filter (fun a => decide (key a = ⊤)))
  rw [List.pairwise_append]
  refine ⟨List.sorted_insertionSort _ _, ?_, ?_⟩
  · exact List.pairwise_of_forall_mem_list fun a _ b hb => by
      have hb2 : key b = ⊤ := by simpa using (List.mem_filter.mp hb).2
      simp [naLE, hb2]
  · intro a _ b hb
    have hb2 : key b = ⊤ := by simpa using (List.mem_filter.mp hb).2
    simp [naLE, hb2]

theorem nargsort_sorted_desc (key : α → WithTop K) (l : List α) :
    List.Sorted (naDescLE key) (nargsort key false l) := by
  show List.Pairwise (naDescLE key)
    ((List.insertionSort (naLE key) ((l.filter (fun a => decide (key a ≠ ⊤))).reverse)).reverse ++
      l.filter (fun a => decide (key a = ⊤)))
  rw [List.pairwise_append]
  refine ⟨?_, ?_, ?_⟩
  · rw [List.pairwise_reverse]
    exact (List.sorted_insertionSort (naLE key) _).imp fun h => Or.inr h
  · exact List.pairwise_of_forall_mem_list fun a _ b hb => by
      have hb2 : key b = ⊤ := by simpa using (List.mem_filter.mp hb).2
      exact Or.inl hb2
  · intro a _ b hb
    have hb2 : key b = ⊤ := by simpa using (List.mem_filter.mp hb).2
    exact Or.inl hb2

end SortModelLemmas

/-!
## Claim C6 — filtering is pure: subset, idempotent, source untouched

The embedding of both `filter` methods is a pure function (the source's
`result = self.df.copy()` means the loaded frame is never written), so the
provable content is the subset and idempotence laws for every argument
combination, over both variants. -/

/-- C6: for every record set and every predicate combination, filtering
returns a subset (sublist) of its input and is idempotent, in both the
curated and the scraped variant; the embedding is a pure function of
`(record set, arguments)`, matching the source's copy-then-mask shape that
leaves the loaded frame unchanged. -/
theorem filter_pure_subset_idem (a : MovieDB.Args) (df : List MovieDB.Movie)
    (sa : MovieFilter.SArgs) (sdf : List MovieFilter.SMovie) :
    (MovieDB.filter a df).Sublist df ∧
    MovieDB.filter a (MovieDB.filter a df) = MovieDB.filter a df ∧
    (MovieFilter.filter sa sdf).Sublist sdf ∧
    MovieFilter.filter sa (MovieFilter.filter sa sdf) = MovieFilter.filter sa sdf :=
  ⟨applyFilters_sublist _ _, applyFilters_idem _ _,
   applyFilters_sublist _ _, applyFilters_idem _ _⟩

/-!
## Claim C5 — the rating predicate is not symmetric in case -/

/-- C5 counterexample: the record's stored rating `pg` and the supplied
string `pg` are equal after upper-casing both, so the claim predicts a
match, but the code compares the stored value un-normalized against the
upper-cased argument and excludes the record. -/
theorem rating_case_cex :
    MovieDB.filter { rating := some "pg" } [moviePg] = [] ∧
    strUpper "pg" = strUpper "pg" ∧ moviePg.rating = some "pg" := by
  refine ⟨by decide, rfl, rfl⟩

/-- C5 amended: a record matches the rating predicate (in either variant)
iff its stored rating equals the supplied string converted to upper case —
only the argument is normalized, so a record whose stored rating is not
already upper-case never matches. -/
theorem rating_match_amended (r : String) (hr : r ≠ "") (m : MovieDB.Movie)
    (df : List MovieDB.Movie) (sm : MovieFilter.SMovie)
    (sdf : List MovieFilter.SMovie) :
    (m ∈ MovieDB.filter { rating := some r } df ↔
      m ∈ df ∧ m.rating = some (strUpper r)) ∧
    (sm ∈ MovieFilter.filter { rating := some r } sdf ↔
      sm ∈ sdf ∧ sm.rating = some (strUpper r)) := by
  constructor
  · rw [MovieDB.filter, mem_applyFilters]
    simp [guardPred, strTruthy, intTruthy, ratTruthy, hr, MovieDB.ratingTest, strVal]
  · rw [MovieFilter.filter, mem_applyFilters]
    simp [guardPred, strTruthy, intTruthy, ratTruthy, hr, MovieFilter.sRatingTest, strVal]

/-- C5 witness: a record whose stored rating is the canonical `PG` matches
the lower-case argument `pg` — the argument alone is normalized. -/
theorem rating_match_witness :
    movieUpPg ∈ MovieDB.filter { rating := some "pg" } [movieUpPg] :=
  (rating_match_amended "pg" (by decide) movieUpPg [movieUpPg] smovieNoScore
      [smovieNoScore]).1.mpr ⟨by simp, by decide⟩

/-!
## Claim C7 — the minimum-gross threshold is scaled and inclusive -/

/-- C7: a record passes the minimum-gross filter iff its gross is present
and at least the threshold times 1,000,000 — inclusive comparison.  In the
curated variant the scaling sits inside `filter` (line 42); in the broader
variant `main` scales the argument (line 298) before `filter` compares
directly (line 87). -/
theorem min_gross_inclusive (t : ℚ) (ht : 0 < t) (m : MovieDB.Movie)
    (df : List MovieDB.Movie) (sm : MovieFilter.SMovie)
    (sdf : List MovieFilter.SMovie) :
    (m ∈ MovieDB.filter { min_gross := some t } df ↔
      m ∈ df ∧ ∃ g, m.gross = some g ∧ t * 1000000 ≤ g) ∧
    (sm ∈ MovieFilter.filter { min_gross := MovieFilter.mainMinGross (some t) } sdf ↔
      sm ∈ sdf ∧ ∃ g, sm.gross = some g ∧ t * 1000000 ≤ g) := by
  have htne : t ≠ 0 := ne_of_gt ht
  have htm : t * 1000000 ≠ 0 := by positivity
  constructor
  · rw [MovieDB.filter, mem_applyFilters]
    simp only [List.mem_cons, List.not_mem_nil, or_false, forall_eq_or_imp, forall_eq,
      guardPred, strTruthy, intTruthy, ratTruthy, htne, strVal, ratVal]
    cases hg : m.gross with
    | none => simp [MovieDB.grossTest, hg, htne]
    | some g => simp [MovieDB.grossTest, hg, htne]
  · rw [MovieFilter.filter, mem_applyFilters]
    rw [MovieFilter.mainMinGross]
    simp only [ratTruthy, htne, strTruthy, intTruthy]
    cases hg : sm.gross with
    | none => simp [MovieFilter.sGrossTest, hg, htne, htm, guardPred, strTruthy,
        intTruthy, ratTruthy, ratVal]
    | some g => simp [MovieFilter.sGrossTest, hg, htne, htm, guardPred, strTruthy,
        intTruthy, ratTruthy, ratVal]

/-- C7 witness: at the concrete threshold 100 (millions), the record with
gross exactly 100,000,000 is included — in both variants — and the record
with gross 99,999,999 is excluded. -/
theorem min_gross_inclusive_witness :
    movieGrossEq ∈ MovieDB.filter { min_gross := some 100 } [movieGrossLow, movieGrossEq] ∧
    movieGrossLow ∉ MovieDB.filter { min_gross := some 100 } [movieGrossLow, movieGrossEq] ∧
    smovieGrossEq ∈ MovieFilter.filter
      { min_gross := MovieFilter.mainMinGross (some 100) } [smovieGrossEq] := by
  refine ⟨?_, ?_, ?_⟩
  · exact (min_gross_inclusive 100 (by norm_num) movieGrossEq
        [movieGrossLow, movieGrossEq] smovieGrossEq [smovieGrossEq]).1.mpr
      ⟨by simp, 100000000, rfl, by norm_num⟩
  · intro hmem
    obtain ⟨-, g, hg, hle⟩ := (min_gross_inclusive 100 (by norm_num) movieGrossLow
        [movieGrossLow, movieGrossEq] smovieGrossEq [smovieGrossEq]).1.mp hmem
    rw [show movieGrossLow.gross = some 99999999 from rfl] at hg
    cases hg
    norm_num at hle
  · exact (min_gross_inclusive 100 (by norm_num) movieGrossEq
        [movieGrossLow, movieGrossEq] smovieGrossEq [smovieGrossEq]).2.mpr
      ⟨by simp, 100000000, rfl, by norm_num⟩

/-!
## Claim C10 — a zero minimum threshold is skipped entirely -/

/-- C10: a zero value for any minimum threshold is Python-falsy, so its
stage is skipped exactly as an absent argument (the filters are the
identity, hence records with missing numeric fields pass), `main`'s scaling
turns a zero `--min-gross` into `None`, and under any positive threshold a
record whose corresponding field is missing is excluded. -/
theorem zero_threshold_skipped (df : List MovieDB.Movie)
    (sdf : List MovieFilter.SMovie) (t : ℚ) (ht : 0 < t) (m : MovieDB.Movie)
    (hm : m.gross = none) (sm : MovieFilter.SMovie) (hsm : sm.score = none) :
    MovieDB.filter { min_gross := some 0 } df = df ∧
    MovieFilter.filter
      { min_score := some 0, min_gross := some 0, min_votes := some (0 : Int) } sdf = sdf ∧
    MovieFilter.mainMinGross (some 0) = none ∧
    m ∉ MovieDB.filter { min_gross := some t } df ∧
    sm ∉ MovieFilter.filter { min_score := some t } sdf := by
  have htne : t ≠ 0 := ne_of_gt ht
  refine ⟨?_, ?_, ?_, ?_, ?_⟩
  · rw [MovieDB.filter, applyFilters_eq_filter]
    simp [guardPred, strTruthy, intTruthy, ratTruthy]
  · rw [MovieFilter.filter, applyFilters_eq_filter]
    simp [guardPred, strTruthy, intTruthy, ratTruthy]
  · rw [MovieFilter.mainMinGross]
    simp [ratTruthy]
  · intro h
    rw [MovieDB.filter, mem_applyFilters] at h
    have := h.2 (guardPred (ratTruthy (some t)) (MovieDB.grossTest (ratVal (some t))))
      (by simp)
    simp [guardPred, ratTruthy, htne, MovieDB.grossTest, ratVal, hm] at this
  · intro h
    rw [MovieFilter.filter, mem_applyFilters] at h
    have := h.2 (guardPred (ratTruthy (some t)) (MovieFilter.sScoreTest (ratVal (some t))))
      (by simp)
    simp [guardPred, ratTruthy, htne, MovieFilter.sScoreTest, ratVal, hsm] at this

/-- C10 witness: the statement at threshold 100 over a record with a
missing gross and a record with a missing score. -/
theorem zero_threshold_witness :
    MovieDB.filter { min_gross := some 0 } [movieNoGross] = [movieNoGross] ∧
    MovieFilter.filter
      { min_score := some 0, min_gross := some 0, min_votes := some (0 : Int) }
      [smovieNoScore] = [smovieNoScore] ∧
    MovieFilter.mainMinGross (some 0) = none ∧
    movieNoGross ∉ MovieDB.filter { min_gross := some 100 } [movieNoGross] ∧
    smovieNoScore ∉ MovieFilter.filter { min_score := some 100 } [smovieNoScore] :=
  zero_threshold_skipped [movieNoGross] [smovieNoScore] 100 (by norm_num)
    movieNoGross rfl smovieNoScore rfl

/-!
## Claim C4 — what the `'year'` sort key actually orders by -/

/-- C4 counterexample: in the scraped variant the key `'year'` resolves to
the materialized numeric `year` column, not to the release date.  On two
records whose `year` fields order opposite to their release dates, the
ascending `'year'` sort returns the year-field order `[B, A]`, although A's
underlying release date (1 January 1980) precedes B's (31 December 1981) —
the output is not ordered by the underlying date. -/
theorem scraped_year_sort_cex :
    MovieFilter.sort [smovieYearA, smovieYearB] "year" true = [smovieYearB, smovieYearA] ∧
    parseDateDMY (cellS smovieYearA.released) = some ⟨1980, 1, 1⟩ ∧
    parseDateDMY (cellS smovieYearB.released) = some ⟨1981, 12, 31⟩ ∧
    (⟨1980, 1, 1⟩ : Date) < ⟨1981, 12, 31⟩ :=
  ⟨by decide, by decide, by decide, by decide⟩

/-- C4 amended: in the curated variant the `'year'` key indeed sorts by the
underlying release date (the output is a permutation of the view that is
chronologically sorted, missing dates last, in the requested direction); in
the broader variant the `'year'` key sorts by the separately materialized
numeric `year` column instead. -/
theorem year_sort_semantics_amended (df : List MovieDB.Movie)
    (sdf : List MovieFilter.SMovie) (asc : Bool) :
    ((MovieDB.sort df "year" asc).Perm df ∧
      List.Sorted
        (cond asc (naLE fun m : MovieDB.Movie => (m.date : WithTop Date))
          (naDescLE fun m : MovieDB.Movie => (m.date : WithTop Date)))
        (MovieDB.sort df "year" asc)) ∧
    ((MovieFilter.sort sdf "year" asc).Perm sdf ∧
      List.Sorted
        (cond asc (naLE fun m : MovieFilter.SMovie => (m.year : WithTop ℚ))
          (naDescLE fun m : MovieFilter.SMovie => (m.year : WithTop ℚ)))
        (MovieFilter.sort sdf "year" asc)) := by
  have hdb : MovieDB.sort df "year" asc =
      nargsort (fun m : MovieDB.Movie => (m.date : WithTop Date)) asc df := rfl
  have hsc : MovieFilter.sort sdf "year" asc =
      nargsort (fun m : MovieFilter.SMovie => (m.year : WithTop ℚ)) asc sdf := rfl
  rw [hdb, hsc]
  cases asc with
  | true =>
    exact ⟨⟨nargsort_perm _ _ _, nargsort_sorted_asc _ _⟩,
      ⟨nargsort_perm _ _ _, nargsort_sorted_asc _ _⟩⟩
  | false =>
    exact ⟨⟨nargsort_perm _ _ _, nargsort_sorted_desc _ _⟩,
      ⟨nargsort_perm _ _ _, nargsort_sorted_desc _ _⟩⟩

/-!
## Claim C2 — what actually aborts the load -/

/-- C2 counterexample: a source whose delimited-text framing is intact but
whose single row carries a date value not in `DD/MM/YYYY` form makes the
curated loader abort fatally — `pd.to_datetime(..., format='%d/%m/%Y')`
raises on the malformed individual value and the catch-all handler exits
the process — where the claim says a malformed individual value never
aborts the load. -/
theorem loader_aborts_on_bad_date_cex :
    MovieDB.init [rowBadDate] = .error .loadFailure ∧
    rowBadDate.dateStr = some "November 17, 1989" := ⟨rfl, rfl⟩

/-- C2 amended: on a framing-intact source the curated loader aborts
exactly when some present `Date Released` value fails the strict
`DD/MM/YYYY` parse (malformed non-date values still degrade), while the
broader variant's loader never aborts on a framing-intact source — its
numeric coercion and date normalization absorb every malformed value. -/
theorem loader_degradation_amended (rows : List MovieDB.RawRow)
    (srows : List MovieFilter.SRawRow) :
    ((∃ e, MovieDB.init rows = .error e) ↔
      ∃ r ∈ rows, ∃ s, r.dateStr = some s ∧ parseDateDMY s = none) ∧
    ∃ ms, MovieFilter.init srows = .ok ms := by
  refine ⟨?_, ⟨srows.map MovieFilter.loadSRow, rfl⟩⟩
  rw [MovieDB.init]
  by_cases hall : rows.all (fun r => r.dateStr.all (fun s => (parseDateDMY s).isSome)) = true
  · rw [if_pos hall]
    rw [List.all_eq_true] at hall
    constructor
    · rintro ⟨e, he⟩
      exact absurd he (by simp)
    · rintro ⟨r, hr, s, hs, hps⟩
      have h1 := hall r hr
      rw [hs] at h1
      simp only [Option.all_some] at h1
      rw [hps] at h1
      simp at h1
  · rw [if_neg hall]
    constructor
    · intro _
      rw [List.all_eq_true] at hall
      push_neg at hall
      obtain ⟨r, hr, hfail⟩ := hall
      cases hds : r.dateStr with
      | none => rw [hds] at hfail; simp [Option.all_none] at hfail
      | some s =>
        rw [hds] at hfail
        simp only [Option.all_some] at hfail
        refine ⟨r, hr, s, hds, ?_⟩
        cases hps : parseDateDMY s with
        | none => rfl
        | some d =>
          exact absurd (show (parseDateDMY s).isSome = true by rw [hps]; rfl) hfail
    · intro _
      exact ⟨.loadFailure, rfl⟩

/-!
## Claim C9 — the derived season -/

theorem mkValidDate_month_range {y mo da : Nat} {d : Date}
    (h : mkValidDate y mo da = some d) :
    d.month = mo ∧ 1 ≤ mo ∧ mo ≤ 12 := by
  rw [mkValidDate] at h
  split_ifs at h with hc
  · cases h
    exact ⟨rfl, hc.2.2.1, hc.2.2.2.1⟩

theorem parseDateDMY_month_range {s : String} {d : Date}
    (h : parseDateDMY s = some d) : 1 ≤ d.month ∧ d.month ≤ 12 := by
  rw [parseDateDMY] at h
  split at h
  next ds ms ys =>
    split at h
    next dd mm yy =>
      split_ifs at h
      obtain ⟨he, h1, h2⟩ := mkValidDate_month_range h
      exact ⟨he ▸ h1, he ▸ h2⟩
    all_goals cases h
  all_goals cases h

theorem seasonMap_eq_specSeason {mo : Nat} (h1 : 1 ≤ mo) (h2 : mo ≤ 12) :
    MovieDB.seasonMap mo = specSeason mo := by
  interval_cases mo <;> rfl

/-- C9: every record the curated loader emits has its season equal to the
specification's fixed month mapping applied to its release date's month
(which the strict parse keeps within 1..12), and a record with a missing
date has a missing season. -/
theorem season_from_month (rows : List MovieDB.RawRow) (ms : List MovieDB.Movie)
    (h : MovieDB.init rows = .ok ms) (m : MovieDB.Movie) (hm : m ∈ ms) :
    (m.date = none → m.season = none) ∧
    ∀ d, m.date = some d →
      1 ≤ d.month ∧ d.month ≤ 12 ∧ m.season = specSeason d.month := by
  rw [MovieDB.init] at h
  split_ifs at h with hall
  · injection h with h'
    subst h'
    obtain ⟨r, hr, rfl⟩ := List.mem_map.mp hm
    constructor
    · intro hd
      simp only [MovieDB.loadRow] at hd ⊢
      rw [hd]
      rfl
    · intro d hd
      simp only [MovieDB.loadRow] at hd ⊢
      obtain ⟨s, _, hps⟩ := Option.bind_eq_some.mp hd
      obtain ⟨hb1, hb2⟩ := parseDateDMY_month_range hps
      refine ⟨hb1, hb2, ?_⟩
      rw [hd, Option.some_bind, seasonMap_eq_specSeason hb1 hb2]

/-- C9 witness: the statement at the concrete November 1994 row the loader
accepts. -/
theorem season_from_month_witness :
    ((MovieDB.loadRow rowWinter).date = none →
      (MovieDB.loadRow rowWinter).season = none) ∧
    ∀ d, (MovieDB.loadRow rowWinter).date = some d →
      1 ≤ d.month ∧ d.month ≤ 12 ∧
        (MovieDB.loadRow rowWinter).season = specSeason d.month :=
  season_from_month [rowWinter] [MovieDB.loadRow rowWinter] rfl _
    (List.mem_singleton.mpr rfl)

/-!
## Claim C3 — monetary formatting per output mode -/

theorem pyRound_natCast (g : ℕ) : pyRound (g : ℚ) = g := by
  unfold pyRound
  simp [Rat.num_natCast, Rat.den_natCast]

theorem pyInt_natCast (g : ℕ) : pyInt (g : ℚ) = g := by
  unfold pyInt
  simp [Rat.num_natCast, Rat.den_natCast]

theorem string_empty_append (s : String) : "" ++ s = s := by
  cases s
  rfl

theorem fmtIntCommas_natCast (g : ℕ) : fmtIntCommas (g : ℤ) = fmtNatCommas g := by
  unfold fmtIntCommas
  rw [if_neg (not_lt.mpr (Int.natCast_nonneg g)), Int.natAbs_ofNat, string_empty_append]

/-- C3 counterexample: the curated variant's delimited-text output of a
record is the serialization of the already-formatted display frame, so its
monetary cells carry a currency prefix and thousands separators — not bare
integers.  The whole emitted cell matrix at a concrete record. -/
theorem curated_csv_currency_cex :
    MovieDB.csvOutput [movieMoney] none =
      [["Movie Title", "Date Released", "Genre", "Season", "MPAA Rating",
        "Total Gross", "Inflation Adjusted Gross"],
       ["Aladdin", "25/11/1992", "Comedy", "Fall", "G",
        "$217,350,219", "$441,969,178"]] := by
  decide

/-- C3 amended: in the broader variant, delimited-text mode emits monetary
fields as bare integers (no separators, no prefix) while table mode adds
thousands separators without a currency prefix; in the curated variant the
delimited-text branch serializes the same display frame as table mode, so
both modes emit monetary fields with the currency prefix and thousands
separators. -/
theorem money_format_by_mode_amended (g : ℕ) (m : MovieDB.Movie)
    (sm : MovieFilter.SMovie) (hm : m.gross = some (g : ℚ))
    (hsm : sm.gross = some (g : ℚ)) :
    (MovieDB.displayCells m).get? 5 = some ("$" ++ fmtNatCommas g) ∧
    (MovieFilter.csvRow sm).get? 4 = some (Nat.repr g) ∧
    MovieFilter.tableGrossCell sm.gross = fmtNatCommas g := by
  refine ⟨?_, ?_, ?_⟩
  · simp [MovieDB.displayCells, fmtCurrencyUSD, hm, pyRound_natCast, fmtIntCommas_natCast]
  · simp only [MovieFilter.csvRow, MovieFilter.csvGrossCell, hsm, pyInt_natCast]
    rfl
  · simp [MovieFilter.tableGrossCell, hsm, pyInt_natCast, fmtIntCommas_natCast]

/-- C3 witness: the amended statement at the concrete value 1,234,567. -/
theorem money_format_by_mode_witness :
    (MovieDB.displayCells
        { movieMoney with gross := some ((1234567 : ℕ) : ℚ) }).get? 5 =
      some ("$" ++ fmtNatCommas 1234567) ∧
    (MovieFilter.csvRow smovieMoney).get? 4 = some (Nat.repr 1234567) ∧
    MovieFilter.tableGrossCell smovieMoney.gross = fmtNatCommas 1234567 :=
  money_format_by_mode_amended 1234567
    { movieMoney with gross := some ((1234567 : ℕ) : ℚ) } smovieMoney rfl
    (by norm_num [smovieMoney])

/-!
## Claim C8 — the Inflation Adjusted Gross placeholder column -/

/-- C8: the broader variant's delimited-text export of a nonempty record
set opens with the exact header, whose sixth column is named
`Inflation Adjusted Gross`, and every data row's sixth cell is the literal
`0` — the placeholder for the natively missing column. -/
theorem inflation_placeholder_csv (data : List MovieFilter.SMovie)
    (hne : data ≠ []) :
    (MovieFilter.csvOutput data).head? = some MovieFilter.csvHeader ∧
    MovieFilter.csvHeader.get? 5 = some "Inflation Adjusted Gross" ∧
    ∀ row ∈ (MovieFilter.csvOutput data).tail, row.get? 5 = some "0" := by
  have hlen : ¬data.length = 0 := by simpa [List.length_eq_zero] using hne
  refine ⟨?_, rfl, ?_⟩
  · rw [MovieFilter.csvOutput, if_neg hlen]
    rfl
  · intro row hrow
    rw [MovieFilter.csvOutput, if_neg hlen] at hrow
    simp only [List.tail_cons, List.mem_map] at hrow
    obtain ⟨sm, _, rfl⟩ := hrow
    rfl

/-- C8 witness: the export of one concrete scraped record. -/
theorem inflation_placeholder_witness :
    (MovieFilter.csvOutput [smovieMoney]).head? = some MovieFilter.csvHeader ∧
    MovieFilter.csvHeader.get? 5 = some "Inflation Adjusted Gross" ∧
    ∀ row ∈ (MovieFilter.csvOutput [smovieMoney]).tail, row.get? 5 = some "0" :=
  inflation_placeholder_csv [smovieMoney] (by decide)
